import Mathlib

/-!
Verification development for the pump.fun token enrichment pipeline
(`config.py`, `step1_enrich.py`).

The Python code is shallowly embedded: every external effect (the chain
RPC response, the DexScreener HTTP response, the GeckoTerminal HTTP
response, per-attempt transport outcomes in the retry loops, the
completion order of the worker pool) is an explicit parameter, and the
functions below mirror the source line by line.  Python dicts are
modelled as association lists of `String × PyVal` with first-match
lookup; `dict.update` prepends the new bindings, so lookups see the
updated values first, exactly as in Python.  Python floats are modelled
as rationals; `round(x, 2)` is modelled as round-half-to-even at two
decimal places.
-/

/-- A Python value as it appears in the records handled by the pipeline:
`None`, a bool, a number, a string, or the list of OHLCV candles
(each candle a list of numbers). -/
inductive PyVal where
  | none
  | bool (b : Bool)
  | num (q : ℚ)
  | str (s : String)
  | numlist (xs : List (List ℚ))
deriving DecidableEq

/-- A Python dict, modelled as an association list with first-match lookup. -/
abbrev Dict := List (String × PyVal)

/-- `d.get(key)` — first matching binding, defaulting to `None`. -/
def dget : Dict → String → PyVal
  | [], _ => PyVal.none
  | (k, v) :: rest, key => if k = key then v else dget rest key

/-- `d.get(key, dflt)`. -/
def dgetD : Dict → String → PyVal → PyVal
  | [], _, dflt => dflt
  | (k, v) :: rest, key, dflt => if k = key then v else dgetD rest key dflt

/-- `d = dict(tok); d.update(m)` — the updated bindings shadow the old ones. -/
def dupdate (d : Dict) (m : Dict) : Dict := m ++ d

/-- Python truthiness for the values that occur in the pipeline. -/
def truthy : PyVal → Bool
  | PyVal.none => false
  | PyVal.bool b => b
  | PyVal.num q => q != 0
  | PyVal.str s => s != ""
  | PyVal.numlist xs => !xs.isEmpty

/-- A Python value that is either `None` or a string. -/
def pyOfOptStr : Option String → PyVal
  | Option.none => PyVal.none
  | Option.some s => PyVal.str s

/-- A Python value that is either `None` or a number. -/
def pyOfOptNum : Option ℚ → PyVal
  | Option.none => PyVal.none
  | Option.some q => PyVal.num q

/-- `tok.get("block_time") or 0`, with the value assumed numeric when present. -/
def pyToNumOr0 : PyVal → ℚ
  | PyVal.num q => q
  | _ => 0

/-- Floor of a rational as an integer. -/
def qfloor (q : ℚ) : ℤ := ⌊q⌋

/-- Round a rational to the nearest integer, ties to even —
the rounding used by Python's builtin `round`. -/
def round_half_even (q : ℚ) : ℤ :=
  let f := qfloor q
  let r := q - (f : ℚ)
  if r < 1/2 then f
  else if 1/2 < r then f + 1
  else if f % 2 = 0 then f else f + 1

/-- Python's `round(q, 2)`. -/
def round2 (q : ℚ) : ℚ := (round_half_even (q * 100) : ℚ) / 100

/-- pump.fun graduation threshold: 85 SOL in lamports (`step1_enrich.py` line 46). -/
def GRADUATION_SOL_LAMPORTS : ℕ := 85000000000

/-- `struct.unpack_from("<Q", raw, off)`: little-endian unsigned 64-bit read
at byte offset `off`. -/
def u64le (raw : List ℕ) (off : ℕ) : ℕ :=
  (List.range 8).foldl (fun acc i => acc + raw.getD (off + i) 0 * 256 ^ i) 0

/-- The possible chain-RPC situations seen by `get_bonding_curve_info`
after the PDA has been derived:
`unavailable` — `rpc_call` returned `None` (retries exhausted);
`nullValue` — response `{value: null}` (account closed/absent);
`badBase64` — account data that fails base64 decoding;
`bytes raw` — successfully base64-decoded account bytes. -/
inductive ChainResp where
  | unavailable
  | nullValue
  | badBase64 (e : String)
  | bytes (raw : List ℕ)
deriving DecidableEq

/-- The dict returned by `get_bonding_curve_info` — every return branch of the
source sets exactly the keys `graduated`, `complete`, `real_sol_reserves`,
`virtual_sol_reserves`, `grad_pct`, `pda`, plus optionally `account_closed`
or `error`; the fields appear here in that order. -/
structure BondingCurveInfo where
  graduated : Bool
  complete : Bool
  real_sol_reserves : ℕ
  virtual_sol_reserves : ℕ
  grad_pct : ℚ
  pda : Option String
  account_closed : Bool
  error : Option String
deriving DecidableEq

/-- `get_bonding_curve_info` (`step1_enrich.py` lines 101-152), with the
derived PDA and the RPC outcome as explicit parameters (PDA derivation is
modelled as having succeeded; no claim concerns `InvalidIdentifier`). -/
def get_bonding_curve_info (pda : String) (resp : ChainResp) : BondingCurveInfo :=
  match resp with
  | ChainResp.unavailable =>
      ⟨false, false, 0, 0, 0, Option.some pda, true, Option.none⟩
  | ChainResp.nullValue =>
      ⟨false, false, 0, 0, 0, Option.some pda, true, Option.none⟩
  | ChainResp.badBase64 e =>
      ⟨false, false, 0, 0, 0, Option.some pda, false, Option.some ("decode_error: " ++ e)⟩
  | ChainResp.bytes raw =>
      if raw.length < 49 then
        ⟨false, false, 0, 0, 0, Option.some pda, false,
          Option.some ("data_too_short: " ++ toString raw.length ++ " bytes")⟩
      else
        let virtual_sol_reserves := u64le raw 16
        let real_sol_reserves := u64le raw 32
        let complete : Bool := raw.getD 48 0 != 0
        let grad_pct : ℚ :=
          if complete then 100
          else min ((real_sol_reserves : ℚ) / (GRADUATION_SOL_LAMPORTS : ℚ) * 100) 100
        ⟨complete, complete, real_sol_reserves, virtual_sol_reserves,
          round2 grad_pct, Option.some pda, false, Option.none⟩

/-- One entry of the DexScreener `pairs` array; absent JSON keys are `none`.
`liquidityUsd` stands for `(p.get("liquidity") or {}).get("usd")`. -/
structure DexPair where
  dexId : Option String
  pairAddress : Option String
  marketCap : Option ℚ
  fdv : Option ℚ
  liquidityUsd : Option ℚ
  priceUsd : Option ℚ
  pairCreatedAt : Option ℚ
deriving DecidableEq, Inhabited

/-- `safe_float(val)` (`step1_enrich.py` lines 170-174): `None` becomes `0.0`. -/
def safe_float (v : Option ℚ) : ℚ := v.getD 0

/-- `fetch_dexscreener` (`step1_enrich.py` lines 157-183).  The parameter is
the `http_get` result: `none` when unavailable (or no usable payload), and
`some pairs` for a payload carrying a `pairs` array (an empty array is falsy
and yields `{}` like a missing one).  Note that the returned dict carries
exactly the six keys written at lines 176-183 — in particular it never
contains a `"graduated"` key. -/
def fetch_dexscreener (data : Option (List DexPair)) : Dict :=
  match data with
  | Option.none => []
  | Option.some pairs =>
    if pairs.isEmpty then []
    else
      let raydium_pairs := pairs.filter (fun p => decide (p.dexId = Option.some "raydium"))
      let best_pair := raydium_pairs.headD (pairs.headD default)
      [("pair_address",
          if raydium_pairs.isEmpty then PyVal.none else pyOfOptStr best_pair.pairAddress),
        ("market_cap_usd", PyVal.num (safe_float best_pair.marketCap)),
        ("fdv", PyVal.num (safe_float best_pair.fdv)),
        ("liquidity_usd", PyVal.num (safe_float best_pair.liquidityUsd)),
        ("price_usd", PyVal.num (safe_float best_pair.priceUsd)),
        ("pair_created_at", pyOfOptNum best_pair.pairCreatedAt)]

/-- The GeckoTerminal `http_get` outcome seen by `fetch_gecko_ohlcv`:
unavailable, a payload missing the nested candle keys (`KeyError`/`TypeError`),
or a well-formed candle list. -/
inductive GeckoResp where
  | unavailable
  | malformed
  | ok (candles : List (List ℚ))
deriving DecidableEq

/-- `fetch_gecko_ohlcv` (`step1_enrich.py` lines 188-207): keep candles with
timestamp (`c[0]`) at or after launch, first 24. -/
def fetch_gecko_ohlcv (resp : GeckoResp) (block_time : ℚ) : List (List ℚ) :=
  match resp with
  | GeckoResp.unavailable => []
  | GeckoResp.malformed => []
  | GeckoResp.ok candles =>
      (candles.filter (fun c => decide (block_time ≤ c.headD 0))).take 24

/-- The external world as seen by one `enrich_token` call: the chain RPC
outcome, the derived PDA, the DexScreener payload, the GeckoTerminal payload. -/
structure TokenEnv where
  chain : ChainResp
  pda : String
  dex : Option (List DexPair)
  gecko : GeckoResp
deriving DecidableEq

/-- The status resolution of `enrich_token` (`step1_enrich.py` lines 253-259):
`graduated` wins, otherwise `grad_pct >= 5` means `active`, else `dead`. -/
def statusOf (graduated : Bool) (grad_pct : ℚ) : String :=
  if graduated then "graduated"
  else if 5 ≤ grad_pct then "active"
  else "dead"

/-- `enrich_token` (`step1_enrich.py` lines 212-278).  Mirrors the source:
the bonding-curve signal, the DexScreener snapshot (`dx`), the
`dx.get("graduated")` override at lines 244-246, the conditional
GeckoTerminal candle fetch at lines 249-251, the status resolution, and the
final `dict(tok)`/`update` with the fourteen enrichment keys. -/
def enrich_token (env : TokenEnv) (tok : Dict) : Dict :=
  let block_time : ℚ := pyToNumOr0 (dget tok "block_time")
  let bc := get_bonding_curve_info env.pda env.chain
  let dx := fetch_dexscreener env.dex
  let pair_address := dget dx "pair_address"
  let market_cap_usd := dgetD dx "market_cap_usd" (PyVal.num 0)
  let fdv := dgetD dx "fdv" (PyVal.num 0)
  let liquidity_usd := dgetD dx "liquidity_usd" (PyVal.num 0)
  let price_usd := dgetD dx "price_usd" (PyVal.num 0)
  let pair_created_at := dget dx "pair_created_at"
  let graduated := if truthy (dget dx "graduated") then true else bc.graduated
  let grad_pct : ℚ := if truthy (dget dx "graduated") then 100 else bc.grad_pct
  let hourly_prices_24h :=
    if graduated && truthy pair_address then fetch_gecko_ohlcv env.gecko block_time else []
  let status := statusOf graduated grad_pct
  dupdate tok
    [("graduated", PyVal.bool graduated),
      ("complete", PyVal.bool bc.complete),
      ("grad_pct", PyVal.num grad_pct),
      ("real_sol_reserves", PyVal.num bc.real_sol_reserves),
      ("virtual_sol_reserves", PyVal.num bc.virtual_sol_reserves),
      ("bonding_curve_pda", pyOfOptStr bc.pda),
      ("pair_address", pair_address),
      ("market_cap_usd", market_cap_usd),
      ("fdv", fdv),
      ("liquidity_usd", liquidity_usd),
      ("price_usd", price_usd),
      ("pair_created_at", pair_created_at),
      ("status", PyVal.str status),
      ("hourly_prices_24h", PyVal.numlist hourly_prices_24h)]

/-- The record built by `enrich_all` when a unit of work raises
(`step1_enrich.py` lines 312-319). -/
def fail_record (tok : Dict) (e : String) : Dict :=
  dupdate tok
    [("enrich_error", PyVal.str e),
      ("graduated", PyVal.bool false),
      ("status", PyVal.str "dead"),
      ("grad_pct", PyVal.num 0)]

/-- The outcome of the unit of work for token `i`: the enriched record when
`raises i = none`, otherwise the captured-error record. -/
def unit_result (tokens : List Dict) (env : ℕ → TokenEnv) (raises : ℕ → Option String)
    (i : ℕ) : Dict :=
  match raises i with
  | Option.none => enrich_token (env i) (tokens.getD i [])
  | Option.some e => fail_record (tokens.getD i []) e

/-- `enrich_all` (`step1_enrich.py` lines 283-348, `smoke_test = False`):
`results = [None] * total`, then each completed future writes its record at
its submission index (`results[idx] = enriched`).  `order` is the sequence
in which `as_completed` yields the futures — a permutation of the indices. -/
def enrich_all (tokens : List Dict) (env : ℕ → TokenEnv) (raises : ℕ → Option String)
    (order : List ℕ) : List (Option Dict) :=
  order.foldl (fun acc i => acc.set i (Option.some (unit_result tokens env raises i)))
    (List.replicate tokens.length Option.none)

/-- The observable outcome of one retrying call: the returned payload
(`none` when the call yields `None`), the number of attempts made, and the
sequence of sleep durations performed (in seconds, in order). -/
structure RunResult (A : Type) where
  result : Option A
  attempts : ℕ
  sleeps : List ℚ
deriving DecidableEq

/-- Per-attempt outcome for `rpc_call`:
`exn` — the POST or `.json()` raised; `errorField` — the JSON body carries
an `"error"` key; `ok r` — a body without `"error"`, whose `d.get("result")`
is `r` (possibly `None`). -/
inductive RpcOutcome (A : Type) where
  | exn
  | errorField
  | ok (r : Option A)
deriving DecidableEq

/-- The retry loop of `rpc_call` (`config.py` lines 21-37), with `attempt`
the current 0-based attempt number and `remaining` the attempts left
(`remaining = 1` means this is the final attempt, i.e.
`attempt = retries - 1`).  On failure before the final attempt the loop
sleeps `2 ** attempt`; on the final attempt it yields `None` without
sleeping. -/
def rpc_attempts (A : Type) (outcomes : ℕ → RpcOutcome A) :
    ℕ → ℕ → RunResult A
  | _, 0 => ⟨Option.none, 0, []⟩
  | attempt, r + 1 =>
    match outcomes attempt with
    | RpcOutcome.ok res => ⟨res, 1, []⟩
    | RpcOutcome.errorField =>
      match r with
      | 0 => ⟨Option.none, 1, []⟩
      | s + 1 =>
        let rest := rpc_attempts A outcomes (attempt + 1) (s + 1)
        ⟨rest.result, rest.attempts + 1, (2 : ℚ) ^ attempt :: rest.sleeps⟩
    | RpcOutcome.exn =>
      match r with
      | 0 => ⟨Option.none, 1, []⟩
      | s + 1 =>
        let rest := rpc_attempts A outcomes (attempt + 1) (s + 1)
        ⟨rest.result, rest.attempts + 1, (2 : ℚ) ^ attempt :: rest.sleeps⟩

/-- `rpc_call(method, params)` with the default `retries = 3` (`config.py`
line 21), as a function of the per-attempt transport outcomes. -/
def rpc_call (A : Type) (outcomes : ℕ → RpcOutcome A) : RunResult A :=
  rpc_attempts A outcomes 0 3

/-- Per-attempt outcome for `http_get`: a raised exception, HTTP 429,
HTTP 200 with payload, or any other status code. -/
inductive HttpOutcome (A : Type) where
  | exn
  | status429
  | ok (payload : A)
  | otherStatus
deriving DecidableEq

/-- The retry loop of `http_get` (`config.py` lines 39-51).  Unlike
`rpc_call`, every failed attempt sleeps — `5 * (attempt + 1)` on a 429 and
the fixed `delay` otherwise — including the final one, after which the
loop exits and the call returns `None`. -/
def http_attempts (A : Type) (outcomes : ℕ → HttpOutcome A) (delay : ℚ) :
    ℕ → ℕ → RunResult A
  | _, 0 => ⟨Option.none, 0, []⟩
  | attempt, r + 1 =>
    match outcomes attempt with
    | HttpOutcome.ok payload => ⟨Option.some payload, 1, []⟩
    | HttpOutcome.status429 =>
      let rest := http_attempts A outcomes delay (attempt + 1) r
      ⟨rest.result, rest.attempts + 1, 5 * ((attempt : ℚ) + 1) :: rest.sleeps⟩
    | HttpOutcome.otherStatus =>
      let rest := http_attempts A outcomes delay (attempt + 1) r
      ⟨rest.result, rest.attempts + 1, delay :: rest.sleeps⟩
    | HttpOutcome.exn =>
      let rest := http_attempts A outcomes delay (attempt + 1) r
      ⟨rest.result, rest.attempts + 1, delay :: rest.sleeps⟩

/-- `http_get(url, params)` with the defaults `retries = 3`, `delay = 0.5`
(`config.py` line 39), as a function of the per-attempt outcomes. -/
def http_get (A : Type) (outcomes : ℕ → HttpOutcome A) : RunResult A :=
  http_attempts A outcomes (1/2) 0 3

/-- Whether an `rpc_call` attempt outcome is a failure (transport exception
or application-level error field). -/
def rpcIsFail (A : Type) (o : RpcOutcome A) : Bool :=
  match o with
  | RpcOutcome.ok _ => false
  | _ => true

/-- Whether an `http_get` attempt outcome is a failure (anything but a 200). -/
def httpIsFail (A : Type) (o : HttpOutcome A) : Bool :=
  match o with
  | HttpOutcome.ok _ => false
  | _ => true

theorem round2_100 : round2 100 = 100 := by
  norm_num [round2, round_half_even, qfloor]

/-- The decoding branch of `get_bonding_curve_info`, with the lets inlined. -/
theorem get_bonding_curve_info_bytes (pda : String) (raw : List ℕ) :
    get_bonding_curve_info pda (ChainResp.bytes raw) =
      if raw.length < 49 then
        ⟨false, false, 0, 0, 0, Option.some pda, false,
          Option.some ("data_too_short: " ++ toString raw.length ++ " bytes")⟩
      else
        ⟨raw.getD 48 0 != 0, raw.getD 48 0 != 0, u64le raw 32, u64le raw 16,
          round2 (if raw.getD 48 0 != 0 then 100
            else min ((u64le raw 32 : ℚ) / (GRADUATION_SOL_LAMPORTS : ℚ) * 100) 100),
          Option.some pda, false, Option.none⟩ := rfl

/-- The dict built by `fetch_dexscreener` never carries a `"graduated"` key,
so `dx.get("graduated")` at `step1_enrich.py` line 244 is always `None`. -/
theorem dget_fetch_dexscreener_graduated (d : Option (List DexPair)) :
    dget (fetch_dexscreener d) "graduated" = PyVal.none := by
  rcases d with _ | pairs
  · rfl
  · unfold fetch_dexscreener
    by_cases h : pairs.isEmpty <;> simp [h, dget]

/-- `enrich_token` spelled out: since the DexScreener dict never carries a
`"graduated"` key, the override at lines 244-246 never fires and the final
record is `dict(tok)` updated with the fourteen enrichment bindings below. -/
theorem enrich_token_eq (env : TokenEnv) (tok : Dict) :
    enrich_token env tok =
      dupdate tok
        [("graduated", PyVal.bool (get_bonding_curve_info env.pda env.chain).graduated),
          ("complete", PyVal.bool (get_bonding_curve_info env.pda env.chain).complete),
          ("grad_pct", PyVal.num (get_bonding_curve_info env.pda env.chain).grad_pct),
          ("real_sol_reserves",
            PyVal.num (get_bonding_curve_info env.pda env.chain).real_sol_reserves),
          ("virtual_sol_reserves",
            PyVal.num (get_bonding_curve_info env.pda env.chain).virtual_sol_reserves),
          ("bonding_curve_pda", pyOfOptStr (get_bonding_curve_info env.pda env.chain).pda),
          ("pair_address", dget (fetch_dexscreener env.dex) "pair_address"),
          ("market_cap_usd", dgetD (fetch_dexscreener env.dex) "market_cap_usd" (PyVal.num 0)),
          ("fdv", dgetD (fetch_dexscreener env.dex) "fdv" (PyVal.num 0)),
          ("liquidity_usd", dgetD (fetch_dexscreener env.dex) "liquidity_usd" (PyVal.num 0)),
          ("price_usd", dgetD (fetch_dexscreener env.dex) "price_usd" (PyVal.num 0)),
          ("pair_created_at", dget (fetch_dexscreener env.dex) "pair_created_at"),
          ("status",
            PyVal.str (statusOf (get_bonding_curve_info env.pda env.chain).graduated
              (get_bonding_curve_info env.pda env.chain).grad_pct)),
          ("hourly_prices_24h",
            PyVal.numlist
              (if (get_bonding_curve_info env.pda env.chain).graduated
                    && truthy (dget (fetch_dexscreener env.dex) "pair_address") then
                  fetch_gecko_ohlcv env.gecko (pyToNumOr0 (dget tok "block_time"))
                else []))] := by
  unfold enrich_token
  simp only [dget_fetch_dexscreener_graduated, truthy, Bool.false_eq_true, if_false]

theorem dget_enrich_status (env : TokenEnv) (tok : Dict) :
    dget (enrich_token env tok) "status" =
      PyVal.str (statusOf (get_bonding_curve_info env.pda env.chain).graduated
        (get_bonding_curve_info env.pda env.chain).grad_pct) := by
  rw [enrich_token_eq]
  simp [dupdate, dget]

theorem dget_enrich_grad_pct (env : TokenEnv) (tok : Dict) :
    dget (enrich_token env tok) "grad_pct" =
      PyVal.num (get_bonding_curve_info env.pda env.chain).grad_pct := by
  rw [enrich_token_eq]
  simp [dupdate, dget]

theorem dget_enrich_graduated (env : TokenEnv) (tok : Dict) :
    dget (enrich_token env tok) "graduated" =
      PyVal.bool (get_bonding_curve_info env.pda env.chain).graduated := by
  rw [enrich_token_eq]
  simp [dupdate, dget]

theorem dget_enrich_hourly (env : TokenEnv) (tok : Dict) :
    dget (enrich_token env tok) "hourly_prices_24h" =
      PyVal.numlist
        (if (get_bonding_curve_info env.pda env.chain).graduated
              && truthy (dget (fetch_dexscreener env.dex) "pair_address") then
            fetch_gecko_ohlcv env.gecko (pyToNumOr0 (dget tok "block_time"))
          else []) := by
  rw [enrich_token_eq]
  simp [dupdate, dget]

/-- Looking up a key that none of the prepended bindings carry falls through
to the original dict. -/
theorem dget_append_keys (m t : Dict) (k : String) (h : k ∉ m.map Prod.fst) :
    dget (m ++ t) k = dget t k := by
  induction m with
  | nil => rfl
  | cons p rest ih =>
    obtain ⟨pk, pv⟩ := p
    simp only [List.map_cons, List.mem_cons, not_or] at h
    simp only [List.cons_append, dget, List.append_eq]
    rw [if_neg (Ne.symm h.1), ih h.2]

theorem dget_fail_record_status (tok : Dict) (e : String) :
    dget (fail_record tok e) "status" = PyVal.str "dead" := by
  simp [fail_record, dupdate, dget]

theorem dget_fail_record_grad_pct (tok : Dict) (e : String) :
    dget (fail_record tok e) "grad_pct" = PyVal.num 0 := by
  simp [fail_record, dupdate, dget]

theorem dget_fail_record_graduated (tok : Dict) (e : String) :
    dget (fail_record tok e) "graduated" = PyVal.bool false := by
  simp [fail_record, dupdate, dget]

theorem dget_fail_record_error (tok : Dict) (e : String) :
    dget (fail_record tok e) "enrich_error" = PyVal.str e := by
  simp [fail_record, dupdate, dget]

/-- Writing slots of a `None`-initialised result array in any order: the
result array keeps its length. -/
theorem foldl_set_length (A : Type) (f : ℕ → A) (order : List ℕ) (acc : List (Option A)) :
    (order.foldl (fun a i => a.set i (Option.some (f i))) acc).length = acc.length := by
  induction order generalizing acc with
  | nil => rfl
  | cons i rest ih =>
    simp only [List.foldl_cons]
    rw [ih, List.length_set]

/-- Writing slots in any order: slot `j` holds `f j` exactly when `j` was
written (every write to slot `j` writes the same value `f j`). -/
theorem foldl_set_getElem (A : Type) (f : ℕ → A) (order : List ℕ) (acc : List (Option A))
    (j : ℕ) :
    (order.foldl (fun a i => a.set i (Option.some (f i))) acc)[j]? =
      if j ∈ order ∧ j < acc.length then Option.some (Option.some (f j)) else acc[j]? := by
  induction order generalizing acc with
  | nil => simp
  | cons i rest ih =>
    simp only [List.foldl_cons]
    rw [ih, List.length_set]
    rcases Nat.lt_or_ge j acc.length with h2 | h2
    · by_cases h1 : j ∈ rest
      · rw [if_pos ⟨h1, h2⟩, if_pos ⟨List.mem_cons_of_mem i h1, h2⟩]
      · rw [if_neg (fun hc => h1 hc.1), List.getElem?_set]
        by_cases h3 : i = j
        · subst h3
          rw [if_pos rfl, if_pos h2, if_pos ⟨List.mem_cons_self i rest, h2⟩]
        · rw [if_neg h3]
          have hcon : ¬(j ∈ i :: rest ∧ j < acc.length) := by
            rintro ⟨hm, -⟩
            rcases List.mem_cons.mp hm with hji | hr
            · exact h3 hji.symm
            · exact h1 hr
          rw [if_neg hcon]
    · have hnone : acc[j]? = Option.none := List.getElem?_eq_none (by omega)
      have hnone2 : (acc.set i (Option.some (f i)))[j]? = Option.none :=
        List.getElem?_eq_none (by rw [List.length_set]; omega)
      rw [if_neg (fun hc => absurd hc.2 (by omega)),
        if_neg (fun hc => absurd hc.2 (by omega)), hnone, hnone2]

/-- The DexScreener response for the C1 scenario: one confirmed pool of the
expected exchange type with `marketCap = 150000`. -/
def c1_pair : DexPair :=
  ⟨Option.some "raydium", Option.some "RaydiumPoolAddr", Option.some 150000,
    Option.none, Option.none, Option.none, Option.none⟩

/-- The C1 scenario environment: chain account lookup returns `{value: null}`,
DexScreener returns the single raydium pair above. -/
def c1_env : TokenEnv :=
  ⟨ChainResp.nullValue, "PDA", Option.some [c1_pair], GeckoResp.unavailable⟩

/-- Claim C1, evaluated on the code: with an absent chain account and a
confirmed raydium pool reporting `marketCap = 150000`, the fused record has
`graduated = False`, `grad_pct = 0.0` and `status = "dead"` (though
`market_cap_usd = 150000` is populated) — because `fetch_dexscreener` never
writes a `"graduated"` key, so the fallback `if dx.get("graduated")` at
`step1_enrich.py` line 244 never fires, contradicting the code's own
comments at lines 228-230 and 243 and the claimed
`graduated=true`, `gradPct=100.0`, `status="graduated"`. -/
theorem c1_code_eval :
    c1_pair.dexId = Option.some "raydium" ∧
    dget (enrich_token c1_env []) "market_cap_usd" = PyVal.num 150000 ∧
    dget (enrich_token c1_env []) "graduated" = PyVal.bool false ∧
    dget (enrich_token c1_env []) "grad_pct" = PyVal.num 0 ∧
    dget (enrich_token c1_env []) "status" = PyVal.str "dead" := by
  decide

/-- Claim C2: whenever the chain account is present and decodes with the
`complete` flag set, the fused record has `status = "graduated"` and
`grad_pct = 100`, for every token dict and regardless of the DexScreener
and GeckoTerminal responses carried by `env`. -/
theorem c2_complete_flag (env : TokenEnv) (tok : Dict) (raw : List ℕ)
    (hc : env.chain = ChainResp.bytes raw) (hlen : 49 ≤ raw.length)
    (hb : raw.getD 48 0 ≠ 0) :
    dget (enrich_token env tok) "status" = PyVal.str "graduated" ∧
    dget (enrich_token env tok) "grad_pct" = PyVal.num 100 := by
  have hcb : (raw.getD 48 0 != 0) = true := by simpa using hb
  have hbc : get_bonding_curve_info env.pda env.chain =
      ⟨true, true, u64le raw 32, u64le raw 16, 100, Option.some env.pda, false,
        Option.none⟩ := by
    rw [hc, get_bonding_curve_info_bytes, if_neg (by omega), hcb]
    simp [round2_100]
  rw [dget_enrich_status, dget_enrich_grad_pct, hbc]
  exact ⟨rfl, rfl⟩

/-- A 49-byte account with `complete = 1` at offset 48. -/
def c2_raw : List ℕ := List.replicate 48 0 ++ [1]

/-- Witness for C2 at a concrete environment. -/
theorem c2_witness :
    dget (enrich_token ⟨ChainResp.bytes c2_raw, "PDA", Option.none, GeckoResp.unavailable⟩ [])
        "status" = PyVal.str "graduated" ∧
    dget (enrich_token ⟨ChainResp.bytes c2_raw, "PDA", Option.none, GeckoResp.unavailable⟩ [])
        "grad_pct" = PyVal.num 100 :=
  c2_complete_flag ⟨ChainResp.bytes c2_raw, "PDA", Option.none, GeckoResp.unavailable⟩ [] c2_raw
    rfl (by decide) (by decide)

/-- A 49-byte account with `complete = 0` and
`real_sol_reserves = 42_500_000_000` (little-endian at offset 32). -/
def c3_raw50 : List ℕ :=
  List.replicate 32 0 ++ [0, 137, 50, 229, 9, 0, 0, 0] ++ List.replicate 8 0 ++ [0]

/-- A 49-byte account with `complete = 0` and
`real_sol_reserves = 1_000_000_000` (little-endian at offset 32). -/
def c3_raw1 : List ℕ :=
  List.replicate 32 0 ++ [0, 202, 154, 59, 0, 0, 0, 0] ++ List.replicate 8 0 ++ [0]

/-- Decoding a well-formed account with `complete = 0`, spelled out. -/
theorem get_bonding_curve_info_not_complete (pda : String) (raw : List ℕ)
    (h1 : 49 ≤ raw.length) (h2 : raw.getD 48 0 = 0) :
    get_bonding_curve_info pda (ChainResp.bytes raw) =
      ⟨false, false, u64le raw 32, u64le raw 16,
        round2 (min ((u64le raw 32 : ℚ) / (GRADUATION_SOL_LAMPORTS : ℚ) * 100) 100),
        Option.some pda, false, Option.none⟩ := by
  have hb : (raw.getD 48 0 != 0) = false := by rw [h2]; rfl
  rw [get_bonding_curve_info_bytes, if_neg (by omega), hb]
  simp

theorem c3_raw50_decodes (pda : String) :
    get_bonding_curve_info pda (ChainResp.bytes c3_raw50) =
      ⟨false, false, 42500000000, 0, 50, Option.some pda, false, Option.none⟩ := by
  rw [get_bonding_curve_info_not_complete pda c3_raw50 (by decide) (by decide)]
  have hr : u64le c3_raw50 32 = 42500000000 := by decide
  have hv : u64le c3_raw50 16 = 0 := by decide
  rw [hr, hv]
  simp only [BondingCurveInfo.mk.injEq]
  norm_num [GRADUATION_SOL_LAMPORTS, round2, round_half_even, qfloor]

/-- Claim C3 (amended): for every decodable account with `complete = 0` the
decoded `grad_pct` is `min(real_sol_reserves / 85e9 * 100, 100)` rounded to
two decimal places; in particular `real_sol_reserves = 42_500_000_000` gives
`grad_pct = 50`, and with no off-chain data the fused status is `"active"`. -/
theorem c3_grad_pct_rounded (pda : String) (raw : List ℕ) (hlen : 49 ≤ raw.length)
    (hb : raw.getD 48 0 = 0) :
    (get_bonding_curve_info pda (ChainResp.bytes raw)).grad_pct =
      round2 (min ((u64le raw 32 : ℚ) / (GRADUATION_SOL_LAMPORTS : ℚ) * 100) 100) ∧
    (get_bonding_curve_info pda (ChainResp.bytes c3_raw50)).real_sol_reserves = 42500000000 ∧
    (get_bonding_curve_info pda (ChainResp.bytes c3_raw50)).grad_pct = 50 ∧
    ∀ tok gecko,
      dget (enrich_token ⟨ChainResp.bytes c3_raw50, pda, Option.none, gecko⟩ tok) "status" =
        PyVal.str "active" := by
  refine ⟨?_, ?_, ?_, ?_⟩
  · rw [get_bonding_curve_info_not_complete pda raw hlen hb]
  · rw [c3_raw50_decodes pda]
  · rw [c3_raw50_decodes pda]
  · intro tok gecko
    rw [dget_enrich_status]
    show PyVal.str (statusOf (get_bonding_curve_info pda (ChainResp.bytes c3_raw50)).graduated
        (get_bonding_curve_info pda (ChainResp.bytes c3_raw50)).grad_pct) = PyVal.str "active"
    rw [c3_raw50_decodes pda]
    norm_num [statusOf]

/-- Witness for C3 at `pda = "PDA"`, `raw = c3_raw50`. -/
theorem c3_witness :
    (get_bonding_curve_info "PDA" (ChainResp.bytes c3_raw50)).grad_pct =
      round2 (min ((u64le c3_raw50 32 : ℚ) / (GRADUATION_SOL_LAMPORTS : ℚ) * 100) 100) ∧
    (get_bonding_curve_info "PDA" (ChainResp.bytes c3_raw50)).real_sol_reserves = 42500000000 ∧
    (get_bonding_curve_info "PDA" (ChainResp.bytes c3_raw50)).grad_pct = 50 ∧
    ∀ tok gecko,
      dget (enrich_token ⟨ChainResp.bytes c3_raw50, "PDA", Option.none, gecko⟩ tok) "status" =
        PyVal.str "active" :=
  c3_grad_pct_rounded "PDA" c3_raw50 (by decide) (by decide)

/-- Counterexample to C3 as stated: for `real_sol_reserves = 1_000_000_000`
the decoded `grad_pct` is `1.18` (the two-decimal rounding of `20/17`), not
the exact `min(realSolReserves / 85e9 * 100, 100) = 20/17`. -/
theorem c3_counterexample :
    (get_bonding_curve_info "PDA" (ChainResp.bytes c3_raw1)).real_sol_reserves = 1000000000 ∧
    (get_bonding_curve_info "PDA" (ChainResp.bytes c3_raw1)).grad_pct = 59/50 ∧
    (get_bonding_curve_info "PDA" (ChainResp.bytes c3_raw1)).grad_pct ≠
      min ((1000000000 : ℚ) / 85000000000 * 100) 100 := by
  rw [get_bonding_curve_info_not_complete "PDA" c3_raw1 (by decide) (by decide)]
  have hr : u64le c3_raw1 32 = 1000000000 := by decide
  simp only [hr]
  refine ⟨by trivial, ?_, ?_⟩
  · norm_num [GRADUATION_SOL_LAMPORTS, round2, round_half_even, qfloor]
  · norm_num [GRADUATION_SOL_LAMPORTS, round2, round_half_even, qfloor]

/-- Claim C4: with no graduation confirmation from the chain signal (and the
off-chain override never firing, see `dget_fetch_dexscreener_graduated`),
the fused status is `"active"` exactly when the decoded `grad_pct` is at
least 5 and `"dead"` exactly when it is below 5; the classification rule
evaluates to `"active"` at 5 and `"dead"` at 4.999. -/
theorem c4_threshold (env : TokenEnv) (tok : Dict)
    (h : (get_bonding_curve_info env.pda env.chain).graduated = false) :
    (dget (enrich_token env tok) "status" = PyVal.str "active" ↔
      5 ≤ (get_bonding_curve_info env.pda env.chain).grad_pct) ∧
    (dget (enrich_token env tok) "status" = PyVal.str "dead" ↔
      (get_bonding_curve_info env.pda env.chain).grad_pct < 5) ∧
    statusOf false 5 = "active" ∧
    statusOf false (4999/1000) = "dead" := by
  rw [dget_enrich_status, h]
  refine ⟨?_, ?_, by decide, by norm_num [statusOf]⟩
  · by_cases hp : 5 ≤ (get_bonding_curve_info env.pda env.chain).grad_pct <;>
      simp [statusOf, hp]
  · by_cases hp : 5 ≤ (get_bonding_curve_info env.pda env.chain).grad_pct
    · have hnl := not_lt.mpr hp
      simp [statusOf, hp, hnl]
    · have hl := lt_of_not_ge hp
      simp [statusOf, hp, hl]

/-- The C4 witness environment: a closed account, hence `graduated = false`
and `grad_pct = 0`. -/
def c4_env : TokenEnv := ⟨ChainResp.nullValue, "PDA", Option.none, GeckoResp.unavailable⟩

/-- Witness for C4: a closed account with no off-chain data yields `"dead"`. -/
theorem c4_witness : dget (enrich_token c4_env []) "status" = PyVal.str "dead" :=
  (c4_threshold c4_env [] (by decide)).2.1.mpr (by decide)

/-- Claim C6: decoding exactly 49 account bytes succeeds — no error, fields
read at offsets 16, 32 and 48 — while any shorter input (48 bytes included)
fails with the too-short error and degrades the on-chain signal to
`graduated = false`, `grad_pct = 0`. -/
theorem c6_decode_boundary (pda : String) (raw : List ℕ) :
    (raw.length = 49 →
      (get_bonding_curve_info pda (ChainResp.bytes raw)).error = Option.none ∧
      (get_bonding_curve_info pda (ChainResp.bytes raw)).virtual_sol_reserves = u64le raw 16 ∧
      (get_bonding_curve_info pda (ChainResp.bytes raw)).real_sol_reserves = u64le raw 32 ∧
      (get_bonding_curve_info pda (ChainResp.bytes raw)).complete = (raw.getD 48 0 != 0)) ∧
    (raw.length < 49 →
      (get_bonding_curve_info pda (ChainResp.bytes raw)).error =
        Option.some ("data_too_short: " ++ toString raw.length ++ " bytes") ∧
      (get_bonding_curve_info pda (ChainResp.bytes raw)).graduated = false ∧
      (get_bonding_curve_info pda (ChainResp.bytes raw)).grad_pct = 0) := by
  constructor
  · intro h49
    rw [get_bonding_curve_info_bytes, if_neg (by omega)]
    exact ⟨rfl, rfl, rfl, rfl⟩
  · intro h49
    rw [get_bonding_curve_info_bytes, if_pos h49]
    exact ⟨rfl, rfl, rfl⟩

/-- Witness for C6: 49 zero bytes decode without error; 48 zero bytes fail
with the too-short error. -/
theorem c6_witness :
    (get_bonding_curve_info "PDA" (ChainResp.bytes (List.replicate 49 0))).error =
      Option.none ∧
    (get_bonding_curve_info "PDA" (ChainResp.bytes (List.replicate 48 0))).error =
      Option.some "data_too_short: 48 bytes" := by
  constructor
  · exact ((c6_decode_boundary "PDA" (List.replicate 49 0)).1 (by decide)).1
  · have h := ((c6_decode_boundary "PDA" (List.replicate 48 0)).2 (by decide)).1
    rw [h]
    decide

/-- Claim C7: for any batch, any per-token environments, and any completion
order (a permutation of the indices, as produced by `as_completed`), the
output has the same length as the input and its `i`-th slot holds the
enriched record of the `i`-th input token. -/
theorem c7_order_preserved (tokens : List Dict) (env : ℕ → TokenEnv) (order : List ℕ)
    (h : order.Perm (List.range tokens.length)) :
    (enrich_all tokens env (fun _ => Option.none) order).length = tokens.length ∧
    ∀ i, i < tokens.length →
      (enrich_all tokens env (fun _ => Option.none) order)[i]? =
        Option.some (Option.some (enrich_token (env i) (tokens.getD i []))) := by
  constructor
  · unfold enrich_all
    rw [foldl_set_length]
    exact List.length_replicate tokens.length Option.none
  · intro i hi
    unfold enrich_all
    rw [foldl_set_getElem]
    have hmem : i ∈ order := h.mem_iff.mpr (List.mem_range.mpr hi)
    rw [List.length_replicate]
    simp [hmem, hi, unit_result]

/-- Two one-field tokens used to witness the ordering claims. -/
def c7_tokens : List Dict := [[("mint", PyVal.str "A")], [("mint", PyVal.str "B")]]

/-- A per-index environment with closed accounts and no off-chain data. -/
def c7_env : ℕ → TokenEnv := fun _ => ⟨ChainResp.nullValue, "PDA", Option.none, GeckoResp.unavailable⟩

/-- Witness for C7: a two-token batch completing in reversed order still
yields the records at their submission indices. -/
theorem c7_witness :
    (enrich_all c7_tokens c7_env (fun _ => Option.none) [1, 0]).length = c7_tokens.length ∧
    ∀ i, i < c7_tokens.length →
      (enrich_all c7_tokens c7_env (fun _ => Option.none) [1, 0])[i]? =
        Option.some (Option.some (enrich_token (c7_env i) (c7_tokens.getD i []))) :=
  c7_order_preserved c7_tokens c7_env [1, 0] (by decide)

/-- Claim C8: if exactly the unit of work for token `j` raises error `e`, the
batch still yields one record per token: slot `j` holds the original token
annotated with `enrich_error = e`, `graduated = False`, `status = "dead"`,
`grad_pct = 0`, and every other slot holds its normally enriched record. -/
theorem c8_failure_isolation (tokens : List Dict) (env : ℕ → TokenEnv) (order : List ℕ)
    (j : ℕ) (e : String) (hj : j < tokens.length)
    (h : order.Perm (List.range tokens.length)) :
    (enrich_all tokens env (fun i => if i = j then Option.some e else Option.none) order).length
        = tokens.length ∧
    (enrich_all tokens env (fun i => if i = j then Option.some e else Option.none) order)[j]? =
      Option.some (Option.some (fail_record (tokens.getD j []) e)) ∧
    dget (fail_record (tokens.getD j []) e) "status" = PyVal.str "dead" ∧
    dget (fail_record (tokens.getD j []) e) "grad_pct" = PyVal.num 0 ∧
    dget (fail_record (tokens.getD j []) e) "graduated" = PyVal.bool false ∧
    dget (fail_record (tokens.getD j []) e) "enrich_error" = PyVal.str e ∧
    ∀ i, i < tokens.length → i ≠ j →
      (enrich_all tokens env (fun i => if i = j then Option.some e else Option.none) order)[i]? =
        Option.some (Option.some (enrich_token (env i) (tokens.getD i []))) := by
  refine ⟨?_, ?_, dget_fail_record_status _ _, dget_fail_record_grad_pct _ _,
    dget_fail_record_graduated _ _, dget_fail_record_error _ _, ?_⟩
  · unfold enrich_all
    rw [foldl_set_length]
    exact List.length_replicate tokens.length Option.none
  · unfold enrich_all
    rw [foldl_set_getElem]
    have hmem : j ∈ order := h.mem_iff.mpr (List.mem_range.mpr hj)
    rw [List.length_replicate]
    simp [hmem, hj, unit_result]
  · intro i hi hne
    unfold enrich_all
    rw [foldl_set_getElem]
    have hmem : i ∈ order := h.mem_iff.mpr (List.mem_range.mpr hi)
    rw [List.length_replicate]
    simp [hmem, hi, unit_result, hne]

/-- Witness for C8: in a two-token batch completing in reversed order, a
forced failure in unit 0 marks only slot 0 dead and error-annotated. -/
theorem c8_witness :
    (enrich_all c7_tokens c7_env (fun i => if i = 0 then Option.some "boom" else Option.none)
        [1, 0]).length = c7_tokens.length ∧
    (enrich_all c7_tokens c7_env (fun i => if i = 0 then Option.some "boom" else Option.none)
        [1, 0])[0]? = Option.some (Option.some (fail_record (c7_tokens.getD 0 []) "boom")) ∧
    dget (fail_record (c7_tokens.getD 0 []) "boom") "status" = PyVal.str "dead" ∧
    dget (fail_record (c7_tokens.getD 0 []) "boom") "grad_pct" = PyVal.num 0 ∧
    dget (fail_record (c7_tokens.getD 0 []) "boom") "graduated" = PyVal.bool false ∧
    dget (fail_record (c7_tokens.getD 0 []) "boom") "enrich_error" = PyVal.str "boom" ∧
    ∀ i, i < c7_tokens.length → i ≠ 0 →
      (enrich_all c7_tokens c7_env (fun i => if i = 0 then Option.some "boom" else Option.none)
          [1, 0])[i]? = Option.some (Option.some (enrich_token (c7_env i) (c7_tokens.getD i []))) :=
  c8_failure_isolation c7_tokens c7_env [1, 0] 0 "boom" (by decide) (by decide)

/-- The fixed key set written by the enrichment pass (the fourteen keys of
`enrich_token` plus `enrich_error` set on worker failure). -/
def enrich_keys : List String :=
  ["graduated", "complete", "grad_pct", "real_sol_reserves", "virtual_sol_reserves",
    "bonding_curve_pda", "pair_address", "market_cap_usd", "fdv", "liquidity_usd",
    "price_usd", "pair_created_at", "status", "hourly_prices_24h", "enrich_error"]

/-- Claim C9: both on success and on worker failure, every key outside the
fixed enrichment key set reads the same in the output record as in the
original token dict. -/
theorem c9_frame (env : TokenEnv) (tok : Dict) (k : String) (h : k ∉ enrich_keys) :
    dget (enrich_token env tok) k = dget tok k ∧
    ∀ e, dget (fail_record tok e) k = dget tok k := by
  simp only [enrich_keys, List.mem_cons, not_or] at h
  constructor
  · rw [enrich_token_eq]
    unfold dupdate
    apply dget_append_keys
    simp only [List.map_cons, List.map_nil, List.mem_cons, not_or]
    tauto
  · intro e
    unfold fail_record dupdate
    apply dget_append_keys
    simp only [List.map_cons, List.map_nil, List.mem_cons, not_or]
    tauto

/-- Witness for C9: the key `"mint"` is outside the enrichment key set and
survives both enrichment and failure capture unchanged. -/
theorem c9_witness :
    dget (enrich_token ⟨ChainResp.nullValue, "PDA", Option.none, GeckoResp.unavailable⟩
        [("mint", PyVal.str "M")]) "mint" = dget [("mint", PyVal.str "M")] "mint" ∧
    ∀ e, dget (fail_record [("mint", PyVal.str "M")] e) "mint" =
      dget [("mint", PyVal.str "M")] "mint" :=
  c9_frame ⟨ChainResp.nullValue, "PDA", Option.none, GeckoResp.unavailable⟩
    [("mint", PyVal.str "M")] "mint" (by decide)

/-- The `some`-branch of `fetch_dexscreener`, with the lets inlined. -/
theorem fetch_dexscreener_some (pairs : List DexPair) :
    fetch_dexscreener (Option.some pairs) =
      (if pairs.isEmpty then []
      else
        [("pair_address",
            if (pairs.filter (fun p => decide (p.dexId = Option.some "raydium"))).isEmpty then
              PyVal.none
            else
              pyOfOptStr ((pairs.filter (fun p => decide (p.dexId = Option.some "raydium"))).headD
                (pairs.headD default)).pairAddress),
          ("market_cap_usd",
            PyVal.num (safe_float ((pairs.filter
              (fun p => decide (p.dexId = Option.some "raydium"))).headD
                (pairs.headD default)).marketCap)),
          ("fdv",
            PyVal.num (safe_float ((pairs.filter
              (fun p => decide (p.dexId = Option.some "raydium"))).headD
                (pairs.headD default)).fdv)),
          ("liquidity_usd",
            PyVal.num (safe_float ((pairs.filter
              (fun p => decide (p.dexId = Option.some "raydium"))).headD
                (pairs.headD default)).liquidityUsd)),
          ("price_usd",
            PyVal.num (safe_float ((pairs.filter
              (fun p => decide (p.dexId = Option.some "raydium"))).headD
                (pairs.headD default)).priceUsd)),
          ("pair_created_at",
            pyOfOptNum ((pairs.filter
              (fun p => decide (p.dexId = Option.some "raydium"))).headD
                (pairs.headD default)).pairCreatedAt)] : Dict) := rfl

/-- Claim C10: when the pair list is non-empty but holds no raydium pair,
`pair_address` is `None` while the five market fields are populated from the
first pair; consequently, for any token whose DexScreener lookup returns
such a list, the OHLCV candle enrichment is never attempted (the candle list
is empty whatever the GeckoTerminal source would return). -/
theorem c10_no_raydium (ps : List DexPair) (hne : ps ≠ [])
    (hno : ∀ p ∈ ps, p.dexId ≠ Option.some "raydium") :
    dget (fetch_dexscreener (Option.some ps)) "pair_address" = PyVal.none ∧
    dget (fetch_dexscreener (Option.some ps)) "market_cap_usd" =
      PyVal.num (safe_float (ps.headD default).marketCap) ∧
    dget (fetch_dexscreener (Option.some ps)) "fdv" =
      PyVal.num (safe_float (ps.headD default).fdv) ∧
    dget (fetch_dexscreener (Option.some ps)) "liquidity_usd" =
      PyVal.num (safe_float (ps.headD default).liquidityUsd) ∧
    dget (fetch_dexscreener (Option.some ps)) "price_usd" =
      PyVal.num (safe_float (ps.headD default).priceUsd) ∧
    dget (fetch_dexscreener (Option.some ps)) "pair_created_at" =
      pyOfOptNum (ps.headD default).pairCreatedAt ∧
    ∀ env tok, env.dex = Option.some ps →
      dget (enrich_token env tok) "hourly_prices_24h" = PyVal.numlist [] := by
  have hray : ps.filter (fun p => decide (p.dexId = Option.some "raydium")) = [] := by
    rw [List.filter_eq_nil_iff]
    intro p hp
    simpa using hno p hp
  have hemp : ps.isEmpty = false := by
    cases ps with
    | nil => exact absurd rfl hne
    | cons a l => rfl
  have hdx : fetch_dexscreener (Option.some ps) =
      [("pair_address", PyVal.none),
        ("market_cap_usd", PyVal.num (safe_float (ps.headD default).marketCap)),
        ("fdv", PyVal.num (safe_float (ps.headD default).fdv)),
        ("liquidity_usd", PyVal.num (safe_float (ps.headD default).liquidityUsd)),
        ("price_usd", PyVal.num (safe_float (ps.headD default).priceUsd)),
        ("pair_created_at", pyOfOptNum (ps.headD default).pairCreatedAt)] := by
    rw [fetch_dexscreener_some]
    rw [if_neg (by simp [hemp])]
    rw [hray]
    simp
  refine ⟨?_, ?_, ?_, ?_, ?_, ?_, ?_⟩
  · rw [hdx]; rfl
  · rw [hdx]; rfl
  · rw [hdx]; rfl
  · rw [hdx]; rfl
  · rw [hdx]; rfl
  · rw [hdx]; rfl
  · intro env tok hdex
    rw [dget_enrich_hourly, hdex, hdx]
    simp [dget, truthy]

/-- A single non-raydium pair used to witness C10. -/
def c10_pair : DexPair :=
  ⟨Option.some "orca", Option.some "OrcaPoolAddr", Option.some 7, Option.some 8,
    Option.some 9, Option.some 10, Option.some 11⟩

/-- Witness for C10 at the one-element non-raydium pair list. -/
theorem c10_witness :
    dget (fetch_dexscreener (Option.some [c10_pair])) "pair_address" = PyVal.none ∧
    dget (fetch_dexscreener (Option.some [c10_pair])) "market_cap_usd" =
      PyVal.num (safe_float ([c10_pair].headD default).marketCap) ∧
    dget (fetch_dexscreener (Option.some [c10_pair])) "fdv" =
      PyVal.num (safe_float ([c10_pair].headD default).fdv) ∧
    dget (fetch_dexscreener (Option.some [c10_pair])) "liquidity_usd" =
      PyVal.num (safe_float ([c10_pair].headD default).liquidityUsd) ∧
    dget (fetch_dexscreener (Option.some [c10_pair])) "price_usd" =
      PyVal.num (safe_float ([c10_pair].headD default).priceUsd) ∧
    dget (fetch_dexscreener (Option.some [c10_pair])) "pair_created_at" =
      pyOfOptNum ([c10_pair].headD default).pairCreatedAt ∧
    ∀ env tok, env.dex = Option.some [c10_pair] →
      dget (enrich_token env tok) "hourly_prices_24h" = PyVal.numlist [] :=
  c10_no_raydium [c10_pair] (by decide) (by decide)

/-- Claim C5 (amended): both calls make at most 3 attempts and return `None`
when every attempt fails.  `rpc_call` waits `2 ** attempt` after every failed
non-final attempt and never after the final one (its sleep list is exactly
`[2^0, ..., 2^(attempts-2)]`).  `http_get`, however, waits a fixed
`delay = 0.5` after a transport failure or a non-200/non-429 status and
`5 * (attempt + 1)` after a 429 — including after the final attempt. -/
theorem c5_retry_contract (A : Type) (ro : ℕ → RpcOutcome A) (ho : ℕ → HttpOutcome A) :
    (rpc_call A ro).attempts ≤ 3 ∧
    (rpc_call A ro).sleeps =
      (List.range ((rpc_call A ro).attempts - 1)).map (fun i => (2 : ℚ) ^ i) ∧
    ((∀ i, i < 3 → rpcIsFail A (ro i) = true) → (rpc_call A ro).result = Option.none) ∧
    (http_get A ho).attempts ≤ 3 ∧
    ((∀ i, i < 3 → httpIsFail A (ho i) = true) → (http_get A ho).result = Option.none) ∧
    ((∀ i, i < 3 → ho i = HttpOutcome.exn) → (http_get A ho).sleeps = [1/2, 1/2, 1/2]) ∧
    ((∀ i, i < 3 → ho i = HttpOutcome.status429) → (http_get A ho).sleeps = [5, 10, 15]) := by
  refine ⟨?_, ?_, ?_, ?_, ?_, ?_, ?_⟩
  · cases h0 : ro 0 <;> cases h1 : ro 1 <;> cases h2 : ro 2 <;>
      simp [rpc_call, rpc_attempts, h0, h1, h2]
  · cases h0 : ro 0 <;> cases h1 : ro 1 <;> cases h2 : ro 2 <;>
      simp [rpc_call, rpc_attempts, h0, h1, h2, List.range_succ]
  · intro hf
    have f0 := hf 0 (by omega)
    have f1 := hf 1 (by omega)
    have f2 := hf 2 (by omega)
    cases h0 : ro 0 <;> cases h1 : ro 1 <;> cases h2 : ro 2 <;>
      simp_all [rpc_call, rpc_attempts, rpcIsFail]
  · cases h0 : ho 0 <;> cases h1 : ho 1 <;> cases h2 : ho 2 <;>
      simp [http_get, http_attempts, h0, h1, h2]
  · intro hf
    have f0 := hf 0 (by omega)
    have f1 := hf 1 (by omega)
    have f2 := hf 2 (by omega)
    cases h0 : ho 0 <;> cases h1 : ho 1 <;> cases h2 : ho 2 <;>
      simp_all [http_get, http_attempts, httpIsFail]
  · intro hf
    have f0 := hf 0 (by omega)
    have f1 := hf 1 (by omega)
    have f2 := hf 2 (by omega)
    simp [http_get, http_attempts, f0, f1, f2]
  · intro hf
    have f0 := hf 0 (by omega)
    have f1 := hf 1 (by omega)
    have f2 := hf 2 (by omega)
    norm_num [http_get, http_attempts, f0, f1, f2]

/-- Witness for C5 at concrete all-failing outcome streams. -/
theorem c5_witness :
    (rpc_call Unit (fun _ => RpcOutcome.errorField)).result = Option.none ∧
    (http_get Unit (fun _ => HttpOutcome.exn)).result = Option.none ∧
    (http_get Unit (fun _ => HttpOutcome.exn)).sleeps = [1/2, 1/2, 1/2] :=
  ⟨(c5_retry_contract Unit (fun _ => RpcOutcome.errorField) (fun _ => HttpOutcome.exn)).2.2.1
      (fun _ _ => rfl),
    (c5_retry_contract Unit (fun _ => RpcOutcome.errorField) (fun _ => HttpOutcome.exn)).2.2.2.2.1
      (fun _ _ => rfl),
    (c5_retry_contract Unit (fun _ => RpcOutcome.errorField) (fun _ => HttpOutcome.exn)).2.2.2.2.2.1
      (fun _ _ => rfl)⟩

/-- Counterexample to C5 as stated: with every `http_get` attempt raising, the
wait sequence is `[0.5, 0.5, 0.5]` — not the claimed `[2^0, 2^1]` — and one
wait follows each of the 3 attempts, the final one included. -/
theorem c5_counterexample :
    (http_get Unit (fun _ => HttpOutcome.exn)).sleeps = [1/2, 1/2, 1/2] ∧
    (http_get Unit (fun _ => HttpOutcome.exn)).sleeps ≠
      [(2 : ℚ) ^ (0 : ℕ), (2 : ℚ) ^ (1 : ℕ)] ∧
    (http_get Unit (fun _ => HttpOutcome.exn)).sleeps.length =
      (http_get Unit (fun _ => HttpOutcome.exn)).attempts := by
  have he : (http_get Unit (fun _ => HttpOutcome.exn)).sleeps = [1/2, 1/2, 1/2] := by
    simp [http_get, http_attempts]
  refine ⟨he, ?_, ?_⟩
  · rw [he]
    simp
  · rw [he]
    simp [http_get, http_attempts]
